import Mathlib

/-!
Shallow embedding of the watchdog health-monitoring subsystem of the
pionexbot repository (src/watchdog.py).

Timestamps are modelled as natural numbers (seconds); `datetime.now()`
becomes an explicit `now : Nat` argument.  The append-only restart log
file is carried in the state both as the raw file content (`log_file`,
a string of newline-terminated records) and as the abstract list of
records (`restart_log`).  One iteration of `Watchdog._monitor_loop`
(the check at the top of the `while` body) is modelled by
`Watchdog.monitor_tick`; the fact that the Python thread has left the
`while` loop (via `break` or because `is_running` was observed false)
is recorded in the ghost field `loop_exited`.  A fallible file write is
modelled by an explicit `writeOk : Bool` argument together with an
`Except`-valued primitive that the caller catches, mirroring the
`try/except` in `_save_restart_log`.
-/

/-- Configuration dictionary handed to `Watchdog.__init__`; each field is
`none` when the key is absent, mirroring `config.get(key, default)`. -/
structure WatchdogConfig where
  enabled : Option Bool
  heartbeat_interval : Option Nat
  max_failures : Option Nat
  auto_restart : Option Bool
deriving Repr, DecidableEq

/-- The restart-event record built in `Watchdog._trigger_restart`. -/
structure RestartEvent where
  timestamp : Nat
  reason : String
  failure_count : Nat
  last_heartbeat : Option Nat
deriving Repr, DecidableEq

/-- State of a `Watchdog` instance (src/watchdog.py lines 17-29), plus the
modelled restart-log file and the ghost flag `loop_exited`. -/
structure Watchdog where
  enabled : Bool
  heartbeat_interval : Nat
  max_failures : Nat
  auto_restart : Bool
  failure_count : Nat
  last_heartbeat : Option Nat
  is_running : Bool
  loop_exited : Bool
  restart_log : List RestartEvent
  log_file : String
deriving Repr, DecidableEq

/-- `Watchdog.__init__(config)`: defaults `enabled=True`,
`heartbeat_interval=30`, `max_failures=3`, `auto_restart=True`;
`failure_count = 0`, `last_heartbeat = None`, `is_running = False`.
No monitor thread exists yet, so `loop_exited` is true. -/
def Watchdog.init (c : WatchdogConfig) : Watchdog where
  enabled := c.enabled.getD true
  heartbeat_interval := c.heartbeat_interval.getD 30
  max_failures := c.max_failures.getD 3
  auto_restart := c.auto_restart.getD true
  failure_count := 0
  last_heartbeat := none
  is_running := false
  loop_exited := true
  restart_log := []
  log_file := ""

/-- `Watchdog.start` (lines 31-50): returns `False` when disabled, `True`
as a no-op when already running, otherwise sets `is_running = True` and
launches the monitor loop (modelled by clearing `loop_exited`). -/
def Watchdog.start (w : Watchdog) : Watchdog × Bool :=
  if !w.enabled then (w, false)
  else if w.is_running then (w, true)
  else ({ w with is_running := true, loop_exited := false }, true)

/-- `Watchdog.stop` (lines 52-65): returns `True` at once when not
running; otherwise sets `is_running = False`, joins the thread with a
bounded timeout, and returns `True`. -/
def Watchdog.stop (w : Watchdog) : Watchdog × Bool :=
  if !w.is_running then (w, true)
  else ({ w with is_running := false }, true)

/-- `Watchdog.heartbeat` (lines 67-76): sets `last_heartbeat = now()`,
resets `failure_count = 0`, returns `True`. -/
def Watchdog.heartbeat (now : Nat) (w : Watchdog) : Watchdog × Bool :=
  ({ w with last_heartbeat := some now, failure_count := 0 }, true)

/-- Rendering of `json.dumps(log_data)` for the restart record written by
`_save_restart_log` (keys in insertion order). -/
def RestartEvent.dumps (e : RestartEvent) : String :=
  "\x7b\"timestamp\": \"" ++ toString e.timestamp ++ "\", \"reason\": \""
    ++ e.reason ++ "\", \"failure_count\": " ++ toString e.failure_count
    ++ ", \"last_heartbeat\": "
    ++ (match e.last_heartbeat with
        | some t => "\"" ++ toString t ++ "\""
        | none => "null")
    ++ "\x7d"

/-- The raw append to the log file inside the `with open(...)` block of
`_save_restart_log` (line 139-140); it may fail, which is modelled by the
explicit `writeOk` flag. -/
def file_append (writeOk : Bool) (file line : String) : Except String String :=
  if writeOk then Except.ok (file ++ line) else Except.error "write failed"

/-- `Watchdog._save_restart_log` (lines 132-143): appends one
newline-terminated `json.dumps` record to the log file; any failure is
caught, logged and swallowed, leaving the state unchanged. -/
def Watchdog.save_restart_log (writeOk : Bool) (w : Watchdog)
    (e : RestartEvent) : Watchdog :=
  match file_append writeOk w.log_file (e.dumps ++ "\n") with
  | Except.ok f => { w with log_file := f, restart_log := w.restart_log ++ [e] }
  | Except.error _ => w

/-- `Watchdog._trigger_restart` (lines 105-130): builds the RestartEvent
from the current state and hands it to `_save_restart_log`; exceptions
are caught and logged, never propagated. -/
def Watchdog.trigger_restart (now : Nat) (writeOk : Bool) (w : Watchdog) :
    Watchdog :=
  let ev : RestartEvent :=
    { timestamp := now
      reason := "watchdog_max_failures"
      failure_count := w.failure_count
      last_heartbeat := w.last_heartbeat }
  w.save_restart_log writeOk ev

/-- One pass of `Watchdog._monitor_loop` (lines 82-99): the `while`
condition check followed by the body of one iteration.  If the thread has
already left the loop nothing happens; if `is_running` is false the loop
exits; otherwise, when a heartbeat has been recorded and is older than
`2 × heartbeat_interval`, `failure_count` is incremented, and on reaching
`max_failures` the restart is triggered (only when `auto_restart`) and
the loop `break`s — without touching `is_running`. -/
def Watchdog.monitor_tick (now : Nat) (writeOk : Bool) (w : Watchdog) :
    Watchdog :=
  if w.loop_exited then w
  else if !w.is_running then { w with loop_exited := true }
  else
    match w.last_heartbeat with
    | none => w
    | some lh =>
      if now - lh > 2 * w.heartbeat_interval then
        let w1 := { w with failure_count := w.failure_count + 1 }
        if w1.failure_count ≥ w1.max_failures then
          let w2 := if w1.auto_restart then w1.trigger_restart now writeOk else w1
          { w2 with loop_exited := true }
        else w1
      else w

/-- The status dictionary returned by `Watchdog.get_status` and
`get_watchdog_status`. -/
structure StatusSnapshot where
  enabled : Bool
  running : Bool
  failure_count : Nat
  last_heartbeat : Option Nat
  max_failures : Nat
  auto_restart : Bool
  heartbeat_interval : Nat
deriving Repr, DecidableEq

/-- `Watchdog.get_status` (lines 145-155): a read-only snapshot of the
current fields. -/
def Watchdog.get_status (w : Watchdog) : StatusSnapshot where
  enabled := w.enabled
  running := w.is_running
  failure_count := w.failure_count
  last_heartbeat := w.last_heartbeat
  max_failures := w.max_failures
  auto_restart := w.auto_restart
  heartbeat_interval := w.heartbeat_interval

/-- `start_watchdog` (lines 160-175).  The module-level
`_watchdog_instance` is modelled as an `Option Watchdog` threaded
explicitly; the result is the new registry content paired with the
value returned to the caller (`none` models Python `None`). -/
def start_watchdog (config : WatchdogConfig) (reg : Option Watchdog) :
    Option Watchdog × Option Watchdog :=
  match reg with
  | some w =>
    if w.is_running then (some w, some w)
    else
      let w' := (Watchdog.init config).start
      if w'.2 then (some w'.1, some w'.1) else (some w'.1, none)
  | none =>
    let w' := (Watchdog.init config).start
    if w'.2 then (some w'.1, some w'.1) else (some w'.1, none)

/-- `stop_watchdog` (lines 177-187). -/
def stop_watchdog (reg : Option Watchdog) : Option Watchdog × Bool :=
  match reg with
  | some w => let r := w.stop; (some r.1, r.2)
  | none => (none, true)

/-- `get_watchdog_status` (lines 189-204): the instance's snapshot, or a
fixed not-started snapshot when no instance was ever constructed. -/
def get_watchdog_status (reg : Option Watchdog) : StatusSnapshot :=
  match reg with
  | some w => w.get_status
  | none =>
    { enabled := false
      running := false
      failure_count := 0
      last_heartbeat := none
      max_failures := 3
      auto_restart := true
      heartbeat_interval := 30 }

/-- `send_heartbeat` (lines 206-212). -/
def send_heartbeat (now : Nat) (reg : Option Watchdog) :
    Option Watchdog × Bool :=
  match reg with
  | some w =>
    if w.is_running then
      let r := w.heartbeat now
      (some r.1, r.2)
    else (some w, false)
  | none => (none, false)

/-- An observable event of one watchdog run: one iteration of the
monitor loop, a heartbeat from a worker thread, or a `stop()` call. -/
inductive WatchdogEvent where
  | tick (now : Nat) (writeOk : Bool)
  | hb (now : Nat)
  | stopCall
deriving Repr, DecidableEq

/-- Interleaving semantics: apply one event to the state. -/
def stepEvent (w : Watchdog) : WatchdogEvent → Watchdog
  | WatchdogEvent.tick now writeOk => w.monitor_tick now writeOk
  | WatchdogEvent.hb now => (w.heartbeat now).1
  | WatchdogEvent.stopCall => w.stop.1

/-- Run a list of events from a state. -/
def runEvents (w : Watchdog) : List WatchdogEvent → Watchdog
  | [] => w
  | e :: es => runEvents (stepEvent w e) es

/-! ### Helper lemmas -/

/-- `_save_restart_log` either appends one record (write succeeded) or
leaves the state unchanged (failure caught and swallowed). -/
lemma save_restart_log_eq (ok : Bool) (w : Watchdog) (e : RestartEvent) :
    w.save_restart_log ok e =
      if ok then
        { w with log_file := w.log_file ++ (e.dumps ++ "\n")
                 restart_log := w.restart_log ++ [e] }
      else w := by
  cases ok <;> rfl

/-- `_trigger_restart` unfolded through `save_restart_log_eq`. -/
lemma trigger_restart_eq (now : Nat) (ok : Bool) (w : Watchdog) :
    w.trigger_restart now ok =
      if ok then
        { w with
            log_file := w.log_file ++
              (RestartEvent.dumps
                { timestamp := now
                  reason := "watchdog_max_failures"
                  failure_count := w.failure_count
                  last_heartbeat := w.last_heartbeat } ++ "\n")
            restart_log := w.restart_log ++
              [{ timestamp := now
                 reason := "watchdog_max_failures"
                 failure_count := w.failure_count
                 last_heartbeat := w.last_heartbeat }] }
      else w := by
  cases ok <;> rfl

/-- `_trigger_restart` never touches the monitor's control fields. -/
lemma trigger_restart_control (now : Nat) (ok : Bool) (w : Watchdog) :
    (w.trigger_restart now ok).is_running = w.is_running ∧
    (w.trigger_restart now ok).failure_count = w.failure_count ∧
    (w.trigger_restart now ok).loop_exited = w.loop_exited ∧
    (w.trigger_restart now ok).last_heartbeat = w.last_heartbeat := by
  cases ok <;> exact ⟨rfl, rfl, rfl, rfl⟩

/-- Once the monitor thread has left the loop, further ticks change
nothing. -/
lemma monitor_tick_exited (now : Nat) (ok : Bool) (w : Watchdog)
    (h : w.loop_exited = true) : w.monitor_tick now ok = w := by
  simp [Watchdog.monitor_tick, h]

/-- The shared test configuration of the spec's escalation scenario. -/
def scenarioConfig : WatchdogConfig := ⟨some true, some 5, some 2, some true⟩

/-- Started monitor, one heartbeat at time 0, then two stale poll ticks. -/
def scenarioRun : Watchdog :=
  runEvents ((Watchdog.init scenarioConfig).start.1)
    [WatchdogEvent.hb 0, WatchdogEvent.tick 11 true, WatchdogEvent.tick 22 true]

/-! ### Claims -/

/-- C1 counterexample: with config `{enabled, interval 5, max_failures 2,
auto_restart}`, a heartbeat at time 0 followed by stale ticks at 11 and 22
reaches a state where `failure_count ≥ max_failures` and the loop has
exited, yet `is_running` is still `true` — the claim says it must be
`false`. -/
theorem c1_counterexample :
    scenarioRun.loop_exited = true ∧
    scenarioRun.failure_count ≥ scenarioRun.max_failures ∧
    scenarioRun.is_running = true := by
  refine ⟨rfl, ?_, rfl⟩
  decide

/-- C1 (amended): when a poll tick escalates (a recorded heartbeat is
older than `2 × heartbeat_interval` and the incremented `failure_count`
reaches `max_failures`), the loop exits exactly once — the tick sets
`loop_exited` and every later tick leaves the state unchanged — but
`is_running` remains `true`, so a later `get_status()` reports
`running = true`. -/
theorem c1_escalation_exits_loop (now : Nat) (ok : Bool) (w : Watchdog)
    (lh : Nat) (hrun : w.is_running = true) (hloop : w.loop_exited = false)
    (hlh : w.last_heartbeat = some lh)
    (hstale : now - lh > 2 * w.heartbeat_interval)
    (hmax : w.failure_count + 1 ≥ w.max_failures) :
    (w.monitor_tick now ok).loop_exited = true ∧
    (w.monitor_tick now ok).is_running = true ∧
    ((w.monitor_tick now ok).get_status).running = true ∧
    ∀ n2 ok2, ((w.monitor_tick now ok).monitor_tick n2 ok2)
      = w.monitor_tick now ok := by
  have hmt : w.monitor_tick now ok =
      { (if w.auto_restart
         then Watchdog.trigger_restart now ok
                { w with failure_count := w.failure_count + 1 }
         else { w with failure_count := w.failure_count + 1 })
        with loop_exited := true } := by
    simp [Watchdog.monitor_tick, hloop, hrun, hlh, hstale, hmax]
  have hrun' : (w.monitor_tick now ok).is_running = true := by
    rw [hmt]
    cases hauto : w.auto_restart
    · simpa using hrun
    · simpa [(trigger_restart_control now ok _).1] using hrun
  have hexit : (w.monitor_tick now ok).loop_exited = true := by
    rw [hmt]
  refine ⟨hexit, hrun', ?_, ?_⟩
  · simpa [Watchdog.get_status] using hrun'
  · intro n2 ok2
    exact monitor_tick_exited n2 ok2 _ hexit

/-- Witness for C1: the amended theorem applied to the concrete scenario
state just before escalation (heartbeat at 0, one stale tick at 11),
escalating at time 22. -/
theorem c1_escalation_exits_loop_witness :
    ((runEvents ((Watchdog.init scenarioConfig).start.1)
        [WatchdogEvent.hb 0, WatchdogEvent.tick 11 true]).monitor_tick
        22 true).loop_exited = true ∧
    ((runEvents ((Watchdog.init scenarioConfig).start.1)
        [WatchdogEvent.hb 0, WatchdogEvent.tick 11 true]).monitor_tick
        22 true).is_running = true := by
  have h := c1_escalation_exits_loop 22 true
      (runEvents ((Watchdog.init scenarioConfig).start.1)
        [WatchdogEvent.hb 0, WatchdogEvent.tick 11 true]) 0
      rfl rfl rfl (by decide) (by decide)
  exact ⟨h.1, h.2.1⟩

/-- C2 counterexample: with the scenario config and NO heartbeat ever
sent, the staleness check is skipped (`if self.last_heartbeat:` is
falsy), so after stale-spaced ticks at 11, 22 and even 1000 the failure
count is still 0, no RestartEvent was appended, and the monitor still
reports `running = true` — the claim says `failure_count` reaches 2, one
event is appended and `running` becomes false. -/
theorem c2_counterexample :
    (runEvents ((Watchdog.init scenarioConfig).start.1)
        [WatchdogEvent.tick 11 true, WatchdogEvent.tick 22 true,
         WatchdogEvent.tick 1000 true]).failure_count = 0 ∧
    (runEvents ((Watchdog.init scenarioConfig).start.1)
        [WatchdogEvent.tick 11 true, WatchdogEvent.tick 22 true,
         WatchdogEvent.tick 1000 true]).restart_log = [] ∧
    get_watchdog_status (some (runEvents
        ((Watchdog.init scenarioConfig).start.1)
        [WatchdogEvent.tick 11 true, WatchdogEvent.tick 22 true,
         WatchdogEvent.tick 1000 true])) =
      { enabled := true, running := true, failure_count := 0,
        last_heartbeat := none, max_failures := 2, auto_restart := true,
        heartbeat_interval := 5 } := by
  refine ⟨rfl, rfl, rfl⟩

/-- C2 (amended): with config `{enabled, interval 5, max_failures 2,
auto_restart}`, one heartbeat at start and none afterwards, after two
stale poll ticks `failure_count` reaches 2, exactly one RestartEvent is
appended, the loop exits, and `get_watchdog_status()` afterwards reports
`running = true` (not false) and `failure_count = 2`. -/
theorem c2_scenario_amended :
    scenarioRun.failure_count = 2 ∧
    scenarioRun.restart_log =
      [{ timestamp := 22, reason := "watchdog_max_failures",
         failure_count := 2, last_heartbeat := some 0 }] ∧
    scenarioRun.loop_exited = true ∧
    get_watchdog_status (some scenarioRun) =
      { enabled := true, running := true, failure_count := 2,
        last_heartbeat := some 0, max_failures := 2, auto_restart := true,
        heartbeat_interval := 5 } := by
  refine ⟨rfl, by decide, rfl, rfl⟩

/-- C3: `_trigger_restart` builds the RestartEvent
`{timestamp = now, reason = "watchdog_max_failures", failure_count,
last_heartbeat}` from the current state and appends exactly one
newline-terminated `json.dumps` record of it to the log file; when the
write fails the state is left unchanged (failure logged and swallowed),
and in either case the function returns normally without touching the
monitor's control fields. -/
theorem c3_trigger_restart_appends (now : Nat) (w : Watchdog) :
    (w.trigger_restart now true).restart_log = w.restart_log ++
      [{ timestamp := now, reason := "watchdog_max_failures",
         failure_count := w.failure_count,
         last_heartbeat := w.last_heartbeat }] ∧
    (w.trigger_restart now true).log_file = w.log_file ++
      (RestartEvent.dumps
        { timestamp := now, reason := "watchdog_max_failures",
          failure_count := w.failure_count,
          last_heartbeat := w.last_heartbeat } ++ "\n") ∧
    w.trigger_restart now false = w ∧
    (∀ ok : Bool,
      (w.trigger_restart now ok).is_running = w.is_running ∧
      (w.trigger_restart now ok).failure_count = w.failure_count ∧
      (w.trigger_restart now ok).loop_exited = w.loop_exited) := by
  refine ⟨rfl, rfl, rfl, fun ok => ?_⟩
  cases ok <;> exact ⟨rfl, rfl, rfl⟩

/-- C4: `start()` returns false and changes nothing when `enabled` is
false; is a pure no-op returning true when already running; and otherwise
sets `is_running = true`, launches the polling loop and returns true. -/
theorem c4_start_spec (w : Watchdog) :
    (w.enabled = false → w.start = (w, false)) ∧
    (w.enabled = true → w.is_running = true → w.start = (w, true)) ∧
    (w.enabled = true → w.is_running = false →
      w.start = ({ w with is_running := true, loop_exited := false },
                 true)) := by
  refine ⟨fun h => ?_, fun h hr => ?_, fun h hr => ?_⟩
  · simp [Watchdog.start, h]
  · simp [Watchdog.start, h, hr]
  · simp [Watchdog.start, h, hr]

/-- Witness for C4: the three branches of `start()` at concrete states —
a disabled watchdog, a freshly started one, and an enabled idle one. -/
theorem c4_start_spec_witness :
    (Watchdog.init ⟨some false, none, none, none⟩).start =
      (Watchdog.init ⟨some false, none, none, none⟩, false) ∧
    ((Watchdog.init scenarioConfig).start.1).start =
      ((Watchdog.init scenarioConfig).start.1, true) ∧
    (Watchdog.init scenarioConfig).start =
      ({ Watchdog.init scenarioConfig with
           is_running := true, loop_exited := false }, true) := by
  refine ⟨(c4_start_spec _).1 rfl,
          (c4_start_spec _).2.1 rfl rfl,
          (c4_start_spec _).2.2 rfl rfl⟩

/-- C5: `heartbeat()` sets `last_heartbeat` to the current time, resets
`failure_count` to 0 whatever its prior value, and returns true; two
heartbeats in a row are equivalent to the single latest one. -/
theorem c5_heartbeat_resets (t1 t2 : Nat) (w : Watchdog) :
    w.heartbeat t2 =
      ({ w with last_heartbeat := some t2, failure_count := 0 }, true) ∧
    ((w.heartbeat t1).1).heartbeat t2 = w.heartbeat t2 := ⟨rfl, rfl⟩

/-- C7: `stop()` always returns true, the stopped state reports
`running = false` through `get_status()`, and a second `stop()` on the
already-stopped monitor is a no-op that also returns true. -/
theorem c7_stop_idempotent (w : Watchdog) :
    w.stop.2 = true ∧
    (w.stop.1).get_status.running = false ∧
    (w.stop.1).stop = (w.stop.1, true) := by
  cases hr : w.is_running <;>
    simp [Watchdog.stop, hr, Watchdog.get_status]

/-- C9: `get_watchdog_status()` is a total pure function: with no
instance ever constructed it returns the fixed not-started snapshot
`{enabled = false, running = false, failure_count = 0,
last_heartbeat = none, max_failures = 3, auto_restart = true,
heartbeat_interval = 30}`; with an instance it returns exactly the
read-only copy of the monitor's current fields. -/
theorem c9_get_watchdog_status_total :
    get_watchdog_status none =
      { enabled := false, running := false, failure_count := 0,
        last_heartbeat := none, max_failures := 3, auto_restart := true,
        heartbeat_interval := 30 } ∧
    ∀ w : Watchdog,
      get_watchdog_status (some w) = w.get_status ∧
      w.get_status =
        { enabled := w.enabled, running := w.is_running,
          failure_count := w.failure_count,
          last_heartbeat := w.last_heartbeat,
          max_failures := w.max_failures,
          auto_restart := w.auto_restart,
          heartbeat_interval := w.heartbeat_interval } :=
  ⟨rfl, fun _ => ⟨rfl, rfl⟩⟩

/-- A poll tick whose elapsed time since any recorded heartbeat is within
`2 × heartbeat_interval` changes neither `failure_count` nor
`last_heartbeat` nor `heartbeat_interval`. -/
lemma monitor_tick_no_increment (now : Nat) (ok : Bool) (w : Watchdog)
    (hfresh : ∀ h, w.last_heartbeat = some h →
      now - h ≤ 2 * w.heartbeat_interval) :
    (w.monitor_tick now ok).failure_count = w.failure_count ∧
    (w.monitor_tick now ok).last_heartbeat = w.last_heartbeat ∧
    (w.monitor_tick now ok).heartbeat_interval = w.heartbeat_interval := by
  cases hex : w.loop_exited with
  | true => rw [monitor_tick_exited now ok w hex]; exact ⟨rfl, rfl, rfl⟩
  | false =>
    cases hrun : w.is_running with
    | false => simp [Watchdog.monitor_tick, hex, hrun]
    | true =>
      cases hl : w.last_heartbeat with
      | none => simp [Watchdog.monitor_tick, hex, hrun, hl]
      | some h =>
        have hle : ¬ (now - h > 2 * w.heartbeat_interval) :=
          Nat.not_lt.mpr (hfresh h hl)
        simp [Watchdog.monitor_tick, hex, hrun, hl, hle]

/-- `stop()` only clears `is_running`. -/
lemma stop_fields (w : Watchdog) :
    (w.stop.1).failure_count = w.failure_count ∧
    (w.stop.1).last_heartbeat = w.last_heartbeat ∧
    (w.stop.1).heartbeat_interval = w.heartbeat_interval := by
  cases hr : w.is_running <;> simp [Watchdog.stop, hr]

/-- The spec's hypothesis that heartbeats keep covering the run: walking
the event list while tracking the most recent heartbeat time, every poll
tick happens within `heartbeat_interval` of that heartbeat (vacuous
before the first heartbeat, where the code skips the check anyway). -/
def heartbeatsCover (interval : Nat) : Option Nat → List WatchdogEvent → Bool
  | _, [] => true
  | _, WatchdogEvent.hb t :: rest => heartbeatsCover interval (some t) rest
  | lh, WatchdogEvent.tick t _ :: rest =>
      (match lh with
       | none => true
       | some h => decide (t - h ≤ interval)) &&
      heartbeatsCover interval lh rest
  | lh, WatchdogEvent.stopCall :: rest => heartbeatsCover interval lh rest

/-- Along any covered event list, a state with `failure_count = 0` keeps
`failure_count = 0`. -/
lemma runEvents_fc_zero (evs : List WatchdogEvent) : ∀ w : Watchdog,
    w.failure_count = 0 →
    heartbeatsCover w.heartbeat_interval w.last_heartbeat evs = true →
    (runEvents w evs).failure_count = 0 := by
  induction evs with
  | nil => intro w hfc _; exact hfc
  | cons e rest ih =>
    intro w hfc hcov
    cases e with
    | hb t =>
      show (runEvents ((w.heartbeat t).1) rest).failure_count = 0
      exact ih _ rfl hcov
    | stopCall =>
      show (runEvents (w.stop.1) rest).failure_count = 0
      obtain ⟨h1, h2, h3⟩ := stop_fields w
      apply ih
      · rw [h1]; exact hfc
      · rw [h2, h3]; exact hcov
    | tick t ok =>
      simp only [heartbeatsCover, Bool.and_eq_true] at hcov
      obtain ⟨hcond, hrest⟩ := hcov
      have hfresh : ∀ h, w.last_heartbeat = some h →
          t - h ≤ 2 * w.heartbeat_interval := by
        intro h hl
        rw [hl] at hcond
        have hle : t - h ≤ w.heartbeat_interval := by simpa using hcond
        omega
      obtain ⟨h1, h2, h3⟩ := monitor_tick_no_increment t ok w hfresh
      show (runEvents (w.monitor_tick t ok) rest).failure_count = 0
      apply ih
      · rw [h1]; exact hfc
      · rw [h2, h3]; exact hrest

/-- C6: while heartbeats keep arriving within `heartbeat_interval` of
each other (as observed at every poll tick), `failure_count` stays 0 in
every state the run reaches; and indeed a single tick leaves
`failure_count` unchanged whenever the elapsed time since the last
heartbeat does not strictly exceed `2 × heartbeat_interval`. -/
theorem c6_fresh_heartbeats_zero_failures (w : Watchdog)
    (evs : List WatchdogEvent) (hfc : w.failure_count = 0)
    (hcov : heartbeatsCover w.heartbeat_interval w.last_heartbeat evs
      = true) :
    (runEvents w evs).failure_count = 0 ∧
    ∀ now ok lh, w.last_heartbeat = some lh →
      now - lh ≤ 2 * w.heartbeat_interval →
      (w.monitor_tick now ok).failure_count = w.failure_count := by
  refine ⟨runEvents_fc_zero evs w hfc hcov, ?_⟩
  intro now ok lh hlh hle
  refine (monitor_tick_no_increment now ok w ?_).1
  intro h hh
  rw [hlh] at hh
  injection hh with he
  exact he ▸ hle

/-- Witness for C6: heartbeats at 0 and 4 with poll ticks at 3 and 8
(interval 5) keep `failure_count` at 0. -/
theorem c6_fresh_heartbeats_witness :
    heartbeatsCover
      ((Watchdog.init scenarioConfig).start.1).heartbeat_interval
      ((Watchdog.init scenarioConfig).start.1).last_heartbeat
      [WatchdogEvent.hb 0, WatchdogEvent.tick 3 true, WatchdogEvent.hb 4,
       WatchdogEvent.tick 8 true] = true ∧
    (runEvents ((Watchdog.init scenarioConfig).start.1)
      [WatchdogEvent.hb 0, WatchdogEvent.tick 3 true, WatchdogEvent.hb 4,
       WatchdogEvent.tick 8 true]).failure_count = 0 :=
  ⟨by decide,
   (c6_fresh_heartbeats_zero_failures
      ((Watchdog.init scenarioConfig).start.1)
      [WatchdogEvent.hb 0, WatchdogEvent.tick 3 true, WatchdogEvent.hb 4,
       WatchdogEvent.tick 8 true] rfl (by decide)).1⟩

/-- C8: `start_watchdog` returns the stored Monitor unchanged while it is
running (idempotent, no duplicate loop); when none is running it behaves
exactly as from an empty registry: it constructs a fresh instance,
returning it started when the config enables the watchdog, and `None`
when `start()` fails because `enabled` is false. -/
theorem c8_start_watchdog_idempotent (cfg : WatchdogConfig)
    (w : Watchdog) :
    (w.is_running = true → start_watchdog cfg (some w) = (some w, some w)) ∧
    (w.is_running = false →
      start_watchdog cfg (some w) = start_watchdog cfg none) ∧
    ((Watchdog.init cfg).enabled = false →
      (start_watchdog cfg none).2 = none) ∧
    ((Watchdog.init cfg).enabled = true →
      start_watchdog cfg none =
        (some ((Watchdog.init cfg).start.1),
         some ((Watchdog.init cfg).start.1)) ∧
      ((Watchdog.init cfg).start.1).is_running = true) := by
  have hinit : (Watchdog.init cfg).is_running = false := rfl
  refine ⟨fun hr => ?_, fun hr => ?_, fun he => ?_, fun he => ?_⟩
  · simp [start_watchdog, hr]
  · simp [start_watchdog, hr]
  · simp [start_watchdog, Watchdog.start, he]
  · refine ⟨?_, ?_⟩
    · simp [start_watchdog, Watchdog.start, he, hinit]
    · simp [Watchdog.start, he, hinit]

/-- Witness for C8: a second `start_watchdog` with the running scenario
instance stored returns it unchanged; with `enabled = false` and an empty
registry the caller gets `None`. -/
theorem c8_start_watchdog_witness :
    start_watchdog scenarioConfig
        (some ((Watchdog.init scenarioConfig).start.1)) =
      (some ((Watchdog.init scenarioConfig).start.1),
       some ((Watchdog.init scenarioConfig).start.1)) ∧
    (start_watchdog ⟨some false, none, none, none⟩ none).2 = none :=
  ⟨(c8_start_watchdog_idempotent scenarioConfig
      ((Watchdog.init scenarioConfig).start.1)).1 rfl,
   (c8_start_watchdog_idempotent ⟨some false, none, none, none⟩
      ((Watchdog.init scenarioConfig).start.1)).2.2.1 rfl⟩

/-- With `auto_restart = false`, no event ever appends to the restart
log, and `auto_restart` stays false. -/
lemma stepEvent_log_of_no_auto (e : WatchdogEvent) (w : Watchdog)
    (hauto : w.auto_restart = false) :
    (stepEvent w e).restart_log = w.restart_log ∧
    (stepEvent w e).auto_restart = false := by
  cases e with
  | hb t => exact ⟨rfl, hauto⟩
  | stopCall =>
    cases hr : w.is_running <;>
      simp [stepEvent, Watchdog.stop, hr, hauto]
  | tick t ok =>
    show (w.monitor_tick t ok).restart_log = w.restart_log ∧
      (w.monitor_tick t ok).auto_restart = false
    cases hex : w.loop_exited with
    | true => rw [monitor_tick_exited t ok w hex]; exact ⟨rfl, hauto⟩
    | false =>
      cases hrun : w.is_running with
      | false => simp [Watchdog.monitor_tick, hex, hrun, hauto]
      | true =>
        cases hl : w.last_heartbeat with
        | none => simp [Watchdog.monitor_tick, hex, hrun, hl, hauto]
        | some h =>
          by_cases hst : t - h > 2 * w.heartbeat_interval
          · by_cases hm : w.failure_count + 1 ≥ w.max_failures
            · simp [Watchdog.monitor_tick, hex, hrun, hl, hst, hm, hauto]
            · simp [Watchdog.monitor_tick, hex, hrun, hl, hst, hm, hauto]
          · simp [Watchdog.monitor_tick, hex, hrun, hl, hst, hauto]

/-- With `auto_restart = false`, a whole run never appends to the
restart log. -/
lemma runEvents_log_of_no_auto (evs : List WatchdogEvent) :
    ∀ w : Watchdog, w.auto_restart = false →
    (runEvents w evs).restart_log = w.restart_log := by
  induction evs with
  | nil => intro w _; rfl
  | cons e rest ih =>
    intro w hauto
    obtain ⟨h1, h2⟩ := stepEvent_log_of_no_auto e w hauto
    show (runEvents (stepEvent w e) rest).restart_log = w.restart_log
    rw [ih (stepEvent w e) h2, h1]

/-- C10: when `auto_restart` is false and a poll tick brings
`failure_count` up to `max_failures`, the loop still exits (the `break`
is outside the `auto_restart` guard) but `_trigger_restart` is never
invoked: no RestartEvent record is appended on that tick — nor anywhere
in the whole run. -/
theorem c10_no_restart_without_auto_restart (w : Watchdog)
    (hauto : w.auto_restart = false) :
    (∀ now ok lh, w.is_running = true → w.loop_exited = false →
      w.last_heartbeat = some lh →
      now - lh > 2 * w.heartbeat_interval →
      w.failure_count + 1 ≥ w.max_failures →
      ((w.monitor_tick now ok).loop_exited = true ∧
       (w.monitor_tick now ok).restart_log = w.restart_log)) ∧
    ∀ evs, (runEvents w evs).restart_log = w.restart_log := by
  constructor
  · intro now ok lh hrun hex hlh hst hm
    constructor
    · simp [Watchdog.monitor_tick, hex, hrun, hlh, hst, hm, hauto]
    · simp [Watchdog.monitor_tick, hex, hrun, hlh, hst, hm, hauto]
  · intro evs
    exact runEvents_log_of_no_auto evs w hauto

/-- Witness for C10: config `{enabled, interval 5, max_failures 2,
auto_restart = false}`, heartbeat at 0, stale tick at 11, then the
escalating tick at 22 exits the loop with the restart log still empty. -/
theorem c10_no_restart_witness :
    ((runEvents
        ((Watchdog.init ⟨some true, some 5, some 2, some false⟩).start.1)
        [WatchdogEvent.hb 0, WatchdogEvent.tick 11 true]).monitor_tick
        22 true).loop_exited = true ∧
    ((runEvents
        ((Watchdog.init ⟨some true, some 5, some 2, some false⟩).start.1)
        [WatchdogEvent.hb 0, WatchdogEvent.tick 11 true]).monitor_tick
        22 true).restart_log =
      (runEvents
        ((Watchdog.init ⟨some true, some 5, some 2, some false⟩).start.1)
        [WatchdogEvent.hb 0, WatchdogEvent.tick 11 true]).restart_log := by
  have h := c10_no_restart_without_auto_restart
      (runEvents
        ((Watchdog.init ⟨some true, some 5, some 2, some false⟩).start.1)
        [WatchdogEvent.hb 0, WatchdogEvent.tick 11 true]) rfl
  exact h.1 22 true 0 rfl rfl rfl (by decide) (by decide)
